/-
Verification of the map-layer lifecycle logic of the narrative-geographies
web application.

The embedding below translates, function by function, the view/layer
synchronization code of the repository:
  - src/context/AppContext.tsx          (global UI store, updateFilter)
  - src/components/explore/map/BaseMap.tsx        (map host)
  - src/components/explore/map/CommunityLayer.tsx (boundary overlay)
  - src/components/explore/map/StoryLayer.tsx     (story overlay, bounded retry)
  - src/components/explore/map/StructureLayer.tsx (structure overlay)

The map engine (Mapbox GL) is modelled as an explicit state record holding
the registered sources (with their GeoJSON feature counts), the style
layers (with the source each refers to), the per-layer click listeners and
a flag for "style mid-transition" (the engine condition that makes
addSource throw the "Style is not done loading" error the story overlay
retries on).  Every engine call a component issues is also recorded in an
explicit call log, so that "the component issues no engine mutation call"
is a statement about that log (the spy-engine view).  Asynchronous
continuations (fetch handlers, deferred style.load retries) are modelled
as explicit functions invoked by the single-threaded event loop; a
component "dispatching" a fetch or registering a listener is recorded as
returned data.
-/

import Mathlib

namespace NG

/-- View mode of the application ("story" / "data" at the map components,
STORIES / DATA in the global store). -/
inductive Mode
  | story
  | data
deriving DecidableEq, Repr

/-! ## Global UI store (src/context/AppContext.tsx) -/

/-- Media type of a story, from AppContext.tsx (`MediaType`). -/
inductive MediaType
  | video
  | audio
  | image
  | article
  | all
deriving DecidableEq, Repr

/-- Filter settings record, from AppContext.tsx (`FilterSettings`):
a theme id (or null), a media type, and a date range of two nullable
dates (dates modelled as natural-number timestamps). -/
structure FilterSettings where
  theme : Option String
  mediaType : MediaType
  dateRange : Option Nat × Option Nat
deriving DecidableEq, Repr

/-- A key/value pair for `updateFilter`: the TypeScript signature
`<K extends keyof FilterSettings>(key: K, value: FilterSettings[K])`
ties the value's type to the key, which this sum type captures. -/
inductive FilterValue
  | theme (v : Option String)
  | mediaType (v : MediaType)
  | dateRange (v : Option Nat × Option Nat)
deriving DecidableEq, Repr

/-- The store's convenience updater, from AppContext.tsx lines 149-154:
`setFilters(prev => ({ ...prev, [key]: value }))` — spread the previous
record and overwrite the single named field. -/
def updateFilter (prev : FilterSettings) : FilterValue → FilterSettings
  | FilterValue.theme v => { prev with theme := v }
  | FilterValue.mediaType v => { prev with mediaType := v }
  | FilterValue.dateRange v => { prev with dateRange := v }

/-! ## Map engine model -/

/-- Error an engine mutation can be rejected with.  The engine rejects
source creation while a style transition is in flight; the code detects
this case by matching the message "Style is not done loading", modelled
here as the enumerated error. -/
inductive EngineError
  | styleNotDoneLoading
deriving DecidableEq, Repr

/-- The map engine state: registered GeoJSON sources (id, feature count),
style layers (id, backing source id), click listeners (the layer id each
is scoped to), and whether a style transition is in flight. -/
structure Engine where
  sources : List (String × Nat)
  layers : List (String × String)
  clickHandlers : List String
  styleLoading : Bool
deriving DecidableEq, Repr

/-- Engine `getSource`, returning the source's current data (feature
count) when present. -/
def Engine.getSource (m : Engine) (id : String) : Option Nat :=
  (m.sources.find? (fun p => p.1 == id)).map Prod.snd

/-- Truth of `map.getSource(id)` used as a condition in the code. -/
def Engine.hasSource (m : Engine) (id : String) : Bool :=
  m.sources.any (fun p => p.1 == id)

/-- Engine `getLayer`, returning the layer's backing source id when the
layer is present. -/
def Engine.getLayer (m : Engine) (id : String) : Option String :=
  (m.layers.find? (fun p => p.1 == id)).map Prod.snd

/-- Truth of `map.getLayer(id)` used as a condition in the code. -/
def Engine.hasLayer (m : Engine) (id : String) : Bool :=
  m.layers.any (fun p => p.1 == id)

/-- Engine `addSource`: rejected with the "Style is not done loading"
error while a style transition is in flight, otherwise registers the
source. -/
def Engine.addSource (m : Engine) (id : String) (n : Nat) : Except EngineError Engine :=
  if m.styleLoading then Except.error EngineError.styleNotDoneLoading
  else Except.ok { m with sources := (id, n) :: m.sources }

/-- Engine `GeoJSONSource.setData`: update the named source's data in
place, leaving layers untouched. -/
def Engine.setData (m : Engine) (id : String) (n : Nat) : Engine :=
  { m with sources := m.sources.map (fun p => if p.1 == id then (id, n) else p) }

/-- Engine `addLayer` with a backing source id. -/
def Engine.addLayer (m : Engine) (id source : String) : Engine :=
  { m with layers := (id, source) :: m.layers }

/-- Engine `removeLayer`. -/
def Engine.removeLayer (m : Engine) (id : String) : Engine :=
  { m with layers := m.layers.filter (fun p => p.1 != id) }

/-- Engine `removeSource`. -/
def Engine.removeSource (m : Engine) (id : String) : Engine :=
  { m with sources := m.sources.filter (fun p => p.1 != id) }

/-- Engine `map.on("click", layerId, handler)`: a click listener scoped to
one layer id. -/
def Engine.onClick (m : Engine) (layerId : String) : Engine :=
  { m with clickHandlers := layerId :: m.clickHandlers }

/-- Engine `map.off("click", layerId, handler)`: detach the listener
scoped to the layer id. -/
def Engine.offClick (m : Engine) (layerId : String) : Engine :=
  { m with clickHandlers := m.clickHandlers.filter (fun l => l != layerId) }

/-- Engine `setStyle`: a style transition discards every custom source and
layer (click listeners persist, they are keyed by layer id on the map
object) and puts the engine in the mid-transition state until the
style.load event fires. -/
def Engine.setStyle (m : Engine) : Engine :=
  { sources := [], layers := [], clickHandlers := m.clickHandlers, styleLoading := true }

/-- The engine's style.load event: the transition has settled. -/
def Engine.fireStyleLoad (m : Engine) : Engine :=
  { m with styleLoading := false }

/-- One entry of the call log (the spy-engine view of a component's
engine calls). -/
inductive ECall
  | addSource (id : String) (n : Nat)
  | setData (id : String) (n : Nat)
  | addLayer (id source : String)
  | removeLayer (id : String)
  | removeSource (id : String)
  | onClick (layerId : String)
  | offClick (layerId : String)
  | setStyle
deriving DecidableEq, Repr

/-- The engine mutation calls named by the spec: addSource, addLayer,
setData, removeLayer, removeSource (listener management and style swaps
are the host's own calls, not overlay mutations). -/
def ECall.isMutation : ECall → Bool
  | ECall.addSource _ _ => true
  | ECall.setData _ _ => true
  | ECall.addLayer _ _ => true
  | ECall.removeLayer _ => true
  | ECall.removeSource _ => true
  | _ => false

/-! ## Map host (src/components/explore/map/BaseMap.tsx) -/

/-- The host's published state: whether the map instance exists
(`map.current !== null`) and the `mapLoaded` flag (the readiness flag the
spec calls `ready`). -/
structure HostState where
  mapPresent : Bool
  mapLoaded : Bool
deriving DecidableEq, Repr

/-- The host's render guard `{mapLoaded && children}` (BaseMap.tsx line
114): overlay children are mounted exactly when the readiness flag is
true. -/
def childrenMounted (mapLoaded : Bool) : Bool := mapLoaded

/-- The host's mode-change effect, BaseMap.tsx lines 90-107: return early
unless the map exists and the style is loaded; otherwise flip `mapLoaded`
to false, call `setStyle`, and register a `once("style.load")` handler
that flips it back to true.  `styleThrows` models the engine throwing
inside `setStyle`; the effect has no try/catch, so in that case the
exception propagates out of the effect before the `once` handler is
registered.  Returns the new host state, the engine, the host's engine
calls, and whether the style.load handler was registered. -/
def modeChangeEffect (h : HostState) (m : Engine) (styleThrows : Bool) :
    HostState × Engine × List ECall × Bool :=
  if !h.mapPresent || !h.mapLoaded then (h, m, [], false)
  else
    let h1 : HostState := ⟨h.mapPresent, false⟩
    if styleThrows then (h1, m, [ECall.setStyle], false)
    else (h1, m.setStyle, [ECall.setStyle], true)

/-! ## Community boundary overlay
(src/components/explore/map/CommunityLayer.tsx) -/

/-- Continuation of CommunityLayer's fetch promise once the GeoJSON data
has arrived (CommunityLayer.tsx lines 42-66): if the source is absent,
addSource then addLayer; otherwise setData.  The continuation does not
re-check the readiness flag.  An addSource rejection propagates to the
`.catch`, which only logs, so the layer is then not added. -/
def communityOnData (m : Engine) (n : Nat) : Engine × List ECall :=
  if !(m.hasSource "community-data") then
    match m.addSource "community-data" n with
    | Except.ok m1 =>
        (m1.addLayer "community-boundaries" "community-data",
         [ECall.addSource "community-data" n,
          ECall.addLayer "community-boundaries" "community-data"])
    | Except.error _ =>
        (m, [ECall.addSource "community-data" n])
  else
    (m.setData "community-data" n, [ECall.setData "community-data" n])

/-- The whole fetch round trip of CommunityLayer: a failed fetch (network
error or non-2xx response, which the code turns into a thrown error) falls
through to the `.catch`, which only logs; a successful fetch runs
`communityOnData`. -/
def communityFetchContinuation (m : Engine) (res : Except Unit Nat) :
    Engine × List ECall :=
  match res with
  | Except.error _ => (m, [])
  | Except.ok n => communityOnData m n

/-- Synchronous body of CommunityLayer's effect (CommunityLayer.tsx lines
27-85): early return if the map or style is not ready; otherwise dispatch
the fetch and, when a click callback is supplied, attach a click listener
scoped to the "community-boundaries" layer id.  Returns the engine, the
synchronous calls, whether a fetch was dispatched, and whether the click
listener was attached (which is also whether a cleanup was returned). -/
def communityEffect (m : Engine) (mapPresent mapLoaded hasCallback : Bool) :
    Engine × List ECall × Bool × Bool :=
  if !mapPresent || !mapLoaded then (m, [], false, false)
  else if hasCallback then
    (m.onClick "community-boundaries", [ECall.onClick "community-boundaries"], true, true)
  else (m, [], true, false)

/-- Cleanup returned by CommunityLayer's effect (lines 77-80): it exists
only when a click listener was attached, and it only detaches that
listener — it removes no layer and no source. -/
def communityCleanup (m : Engine) (clickAttached : Bool) : Engine × List ECall :=
  if clickAttached then
    (m.offClick "community-boundaries", [ECall.offClick "community-boundaries"])
  else (m, [])

/-! ## Story overlay (src/components/explore/map/StoryLayer.tsx) -/

/-- Result of a StoryLayer code path: the engine, the issued calls, and
the data payload of a retry deferred to the next style.load event, when
one was registered (`map.once("style.load", ...)`). -/
structure StoryStep where
  engine : Engine
  calls : List ECall
  pendingRetry : Option Nat
deriving DecidableEq, Repr

/-- The removal idiom the code repeats verbatim (StoryLayer's
`mode !== "story"` branch and cleanup, StructureLayer's cleanup):
`if (map.getLayer(lid)) map.removeLayer(lid); if (map.getSource(sid))
map.removeSource(sid);` — remove the layer if present, then the source if
present. -/
def removeLayerThenSource (m : Engine) (lid sid : String) : Engine × List ECall :=
  let s1 : Engine × List ECall :=
    if m.hasLayer lid then (m.removeLayer lid, [ECall.removeLayer lid])
    else (m, [])
  let s2 : Engine × List ECall :=
    if s1.1.hasSource sid then (s1.1.removeSource sid, [ECall.removeSource sid])
    else (s1.1, [])
  (s2.1, s1.2 ++ s2.2)

/-- Removal of the story overlay, as written identically at both
deactivation sites (the `mode !== "story"` branch, StoryLayer.tsx lines
41-51, and the effect cleanup, lines 165-174): remove the layer if
present, then the source if present.  The click listener is not
detached at either site. -/
def storyRemove (m : Engine) : Engine × List ECall :=
  removeLayerThenSource m "story-markers" "stories-data"

/-- The deferred retry handler StoryLayer registers with
`map.once("style.load", ...)` (StoryLayer.tsx lines 79-122): re-check
whether the source now exists; if absent try addSource again (a second
failure is logged and the handler returns without touching the layer), if
present update its data in place; then add the layer if absent, attaching
the click listener when a callback is supplied.  The handler registers no
further retry: `pendingRetry` is always `none`. -/
def storyRetry (m : Engine) (n : Nat) (hasClick : Bool) : StoryStep :=
  let step1 : Engine × List ECall × Bool :=
    if !(m.hasSource "stories-data") then
      match m.addSource "stories-data" n with
      | Except.ok m1 => (m1, [ECall.addSource "stories-data" n], true)
      | Except.error _ => (m, [ECall.addSource "stories-data" n], false)
    else (m.setData "stories-data" n, [ECall.setData "stories-data" n], true)
  let m1 := step1.1
  if step1.2.2 then
    if !(m1.hasLayer "story-markers") then
      let m2 := m1.addLayer "story-markers" "stories-data"
      let m3 := if hasClick then m2.onClick "story-markers" else m2
      ⟨m3,
       step1.2.1 ++ [ECall.addLayer "story-markers" "stories-data"]
         ++ (if hasClick then [ECall.onClick "story-markers"] else []),
       none⟩
    else ⟨m1, step1.2.1, none⟩
  else ⟨m1, step1.2.1, none⟩

/-- Continuation of StoryLayer's fetch promise once the GeoJSON data has
arrived (StoryLayer.tsx lines 66-158): if the source is absent, try
addSource; on the "Style is not done loading" rejection register the
retry for the next style.load event and stop; on success add the layer
(unguarded here — the source was just created) and attach the click
listener when a callback is supplied.  If the source already exists,
update its data in place without touching the layer.  The continuation
does not re-check the readiness flag. -/
def storyOnData (m : Engine) (n : Nat) (hasClick : Bool) : StoryStep :=
  if !(m.hasSource "stories-data") then
    match m.addSource "stories-data" n with
    | Except.ok m1 =>
        let m2 := m1.addLayer "story-markers" "stories-data"
        let m3 := if hasClick then m2.onClick "story-markers" else m2
        ⟨m3,
         [ECall.addSource "stories-data" n,
          ECall.addLayer "story-markers" "stories-data"]
           ++ (if hasClick then [ECall.onClick "story-markers"] else []),
         none⟩
    | Except.error e =>
        if e = EngineError.styleNotDoneLoading then
          ⟨m, [ECall.addSource "stories-data" n], some n⟩
        else
          ⟨m, [ECall.addSource "stories-data" n], none⟩
  else
    ⟨m.setData "stories-data" n, [ECall.setData "stories-data" n], none⟩

/-- The whole fetch round trip of StoryLayer: a failed fetch falls through
to the `.catch`, which only logs; a successful fetch runs `storyOnData`. -/
def storyFetchContinuation (m : Engine) (res : Except Unit Nat) (hasClick : Bool) :
    StoryStep :=
  match res with
  | Except.error _ => ⟨m, [], none⟩
  | Except.ok n => storyOnData m n hasClick

/-- Synchronous body of StoryLayer's effect (StoryLayer.tsx lines 33-162):
early return if the map or style is not ready; in any mode other than
"story" remove the overlay (layer then source, guarded) and return; in
"story" mode dispatch the fetch.  Returns the engine, the synchronous
calls, and whether a fetch was dispatched. -/
def storyEffect (m : Engine) (mapPresent mapLoaded : Bool) (mode : Mode) :
    Engine × List ECall × Bool :=
  if !mapPresent || !mapLoaded then (m, [], false)
  else if mode ≠ Mode.story then
    let (m1, cs) := storyRemove m
    (m1, cs, false)
  else (m, [], true)

/-! ## Structure overlay
(src/components/explore/map/StructureLayer.tsx) -/

/-- StructureLayer's `addStructureLayer` (StructureLayer.tsx lines 23-67):
return if the map is gone; a failed fetch is caught and logged; otherwise
add the source if absent (or update its data in place), then add the layer
if absent.  The whole body is one try/catch, so an addSource rejection
skips the layer step.  `addStructureLayer` checks only the map's
presence, not the readiness flag. -/
def addStructureLayer (m : Engine) (mapPresent : Bool) (res : Except Unit Nat) :
    Engine × List ECall :=
  if !mapPresent then (m, [])
  else
    match res with
    | Except.error _ => (m, [])
    | Except.ok n =>
        if !(m.hasSource "structure-data") then
          match m.addSource "structure-data" n with
          | Except.ok m1 =>
              if !(m1.hasLayer "structure-markers") then
                (m1.addLayer "structure-markers" "structure-data",
                 [ECall.addSource "structure-data" n,
                  ECall.addLayer "structure-markers" "structure-data"])
              else (m1, [ECall.addSource "structure-data" n])
          | Except.error _ => (m, [ECall.addSource "structure-data" n])
        else
          let m1 := m.setData "structure-data" n
          if !(m1.hasLayer "structure-markers") then
            (m1.addLayer "structure-markers" "structure-data",
             [ECall.setData "structure-data" n,
              ECall.addLayer "structure-markers" "structure-data"])
          else (m1, [ECall.setData "structure-data" n])

/-- Synchronous body of StructureLayer's effect (StructureLayer.tsx lines
68-94): early return unless the map and style are ready; otherwise
dispatch `addStructureLayer` and register it as a style.load listener.
Returns (fetchDispatched, styleLoadListenerRegistered). -/
def structureEffect (mapPresent mapLoaded : Bool) : Bool × Bool :=
  if !mapPresent || !mapLoaded then (false, false) else (true, true)

/-- Cleanup of StructureLayer's effect (lines 81-93): detach the
style.load listener, then remove the layer if present, then the source if
present. -/
def structureCleanup (m : Engine) : Engine × List ECall :=
  removeLayerThenSource m "structure-markers" "structure-data"

/-- Body of the click handlers attached by CommunityLayer (lines 72-75)
and StoryLayer (lines 110-113, 143-146):
`const feature = e.features && e.features[0]; if (feature) callback(feature)` —
take the first feature under the pointer and pass it to the callback, do
nothing when there is none. -/
def clickHandlerBody {α β : Type} (callback : α → β) (features : List α) : Option β :=
  match features with
  | [] => none
  | f :: _ => some (callback f)

/-! ## Scenario definitions -/

/-- The engine right after a style has fully loaded with no custom
content: no sources, no layers, no listeners, no transition in flight. -/
def loadedEmptyEngine : Engine := ⟨[], [], [], false⟩

/-- One full activation cycle after the host (re)mounts its overlay
children with ready=true: each overlay's effect body runs, then the
dispatched fetch continuations resolve with the fixture feature counts
(the single-threaded event loop runs network continuations after the
synchronous effect bodies).  Registration order among the overlays is
immaterial — they own disjoint identifiers. -/
def settleOverlays (mode : Mode) (storyN communityN structureN : Nat)
    (m : Engine) : Engine :=
  let st := storyEffect m true true mode
  let m1 := st.1
  let m2 := (communityFetchContinuation m1 (Except.ok communityN)).1
  let m3 := (addStructureLayer m2 true (Except.ok structureN)).1
  if st.2.2 then (storyOnData m3 storyN false).engine else m3

/-- The settled STORIES state of the mode-switch scenario: story fixture
with 3 features, community boundaries with 5, structures with 7. -/
def c6Before : Engine := settleOverlays Mode.story 3 5 7 loadedEmptyEngine

/-- The STORIES→DATA transition applied to the settled STORIES state: the
host's mode-change effect flips ready to false and swaps the style
(children unmount; their cleanups run against the cleared style), the
engine fires style.load (ready flips back to true), and the remounted
overlays settle under DATA mode with the same fixtures. -/
def c6After : Engine :=
  let step := modeChangeEffect ⟨true, true⟩ c6Before false
  let e1 := (storyRemove step.2.1).1
  let e2 := (communityCleanup e1 false).1
  let e3 := (structureCleanup e2).1
  settleOverlays Mode.data 3 5 7 e3.fireStyleLoad

/-- Trace refuting the "no engine call while ready=false" claim: the
community overlay's fetch is dispatched while ready=true; a mode change
then flips ready to false and starts a style transition (the unmounting
cleanup detaches nothing — no click callback was supplied); the fetch then
resolves and its continuation runs against the not-ready host.  Returns
the host state at that moment and the continuation's engine calls. -/
def lateFetchDuringTransition : HostState × Engine × List ECall :=
  let step := modeChangeEffect ⟨true, true⟩ loadedEmptyEngine false
  let e1 := (communityCleanup step.2.1 false).1
  let late := communityOnData e1 5
  (step.1, late.1, late.2)

/-- Trace refuting the fetch-cancellation claim: the story overlay
dispatches its fetch in STORIES mode; the mode switches to DATA (style
swap, story cleanup, style.load, remounted story effect takes its removal
branch — all leaving no story content); then the stale response from the
STORIES-time fetch arrives and its continuation runs. -/
def lateFetchAfterDeactivation : StoryStep :=
  let step := modeChangeEffect ⟨true, true⟩ loadedEmptyEngine false
  let e1 := (storyRemove step.2.1).1
  let e2 := e1.fireStyleLoad
  let e3 := (storyEffect e2 true true Mode.data).1
  storyOnData e3 3 false

/-- Trace refuting the listener-detachment claim: the story overlay
activates with a click callback (source added, layer added, click listener
attached), then deactivates through its removal path. -/
def storyClickScenario : Engine × List ECall :=
  let step := storyOnData loadedEmptyEngine 3 true
  let r := storyRemove step.engine
  (r.1, step.calls ++ r.2)

/-- An engine on which the community overlay is fully active: its source
(5 features), its fill layer, and its click listener are present. -/
def communityActiveEngine : Engine :=
  ⟨[("community-data", 5)], [("community-boundaries", "community-data")],
   ["community-boundaries"], false⟩

/-! ## Helper lemmas -/

/-- Filtering a keyed list by "key different from id" leaves no entry
keyed by id. -/
theorem any_key_filter_ne {α : Type} (l : List (String × α)) (id : String) :
    (l.filter (fun p => p.1 != id)).any (fun p => p.1 == id) = false := by
  induction l with
  | nil => rfl
  | cons p t ih =>
      by_cases h : p.1 = id
      · simp [List.filter_cons, h, ih]
      · simp [List.filter_cons, List.any_cons, h, ih]

/-- A keyed filter is the identity when no entry matches the key. -/
theorem filter_eq_self_of_any_false {α : Type} (l : List (String × α)) (id : String)
    (h : l.any (fun p => p.1 == id) = false) :
    l.filter (fun p => p.1 != id) = l := by
  induction l with
  | nil => rfl
  | cons p t ih =>
      rw [List.any_cons, Bool.or_eq_false_iff] at h
      rw [List.filter_cons, if_pos (by simp [bne, h.1]), ih h.2]

/-- The find? over a list whose matching entries were all rewritten to
`(id, n)` yields `(id, n)` when a matching entry exists. -/
theorem find?_map_update (s : List (String × Nat)) (id : String) (n : Nat)
    (h : s.any (fun p => p.1 == id) = true) :
    (s.map (fun p => if p.1 == id then (id, n) else p)).find? (fun p => p.1 == id)
      = some (id, n) := by
  induction s with
  | nil => cases h
  | cons p t ih =>
      by_cases hp : p.1 = id
      · have hif : (if p.1 == id then ((id : String), n) else p) = (id, n) := by
          simp [hp]
        simp only [List.map_cons, List.find?_cons, hif]
        simp
      · have hif : (if p.1 == id then ((id : String), n) else p) = p := by
          simp [hp]
        have hfalse : (p.1 == id) = false := by simp [hp]
        have h2 : t.any (fun p => p.1 == id) = true := by
          simpa [List.any_cons, hp] using h
        simp only [List.map_cons, List.find?_cons, hfalse, Bool.false_eq_true,
          if_false]
        exact ih h2

/-- Updating a present source's data in place makes getSource report the
new data. -/
theorem getSource_setData (m : Engine) (id : String) (n : Nat)
    (h : m.hasSource id = true) :
    (m.setData id n).getSource id = some n := by
  show ((m.sources.map fun p => if p.1 == id then (id, n) else p).find?
      (fun p => p.1 == id)).map Prod.snd = some n
  rw [find?_map_update m.sources id n h]
  rfl

/-- Removing a layer does not affect source presence. -/
theorem hasSource_removeLayer (m : Engine) (lid id : String) :
    (m.removeLayer lid).hasSource id = m.hasSource id := rfl

/-- The guarded layer-then-source removal always yields the engine with
both keys filtered out (a filter on an absent key being the identity),
with listeners and transition state untouched. -/
theorem removeLayerThenSource_engine_eq (m : Engine) (lid sid : String) :
    (removeLayerThenSource m lid sid).1
      = ⟨m.sources.filter (fun p => p.1 != sid),
         m.layers.filter (fun p => p.1 != lid),
         m.clickHandlers, m.styleLoading⟩ := by
  cases h1 : m.hasLayer lid <;> cases h2 : m.hasSource sid
  · simp only [removeLayerThenSource, h1, h2, hasSource_removeLayer,
      Bool.false_eq_true, if_false]
    rw [filter_eq_self_of_any_false m.sources sid h2,
      filter_eq_self_of_any_false m.layers lid h1]
  · simp only [removeLayerThenSource, h1, h2, hasSource_removeLayer,
      Bool.false_eq_true, if_false, if_true]
    simp only [Engine.removeSource]
    rw [filter_eq_self_of_any_false m.layers lid h1]
  · simp only [removeLayerThenSource, h1, h2, hasSource_removeLayer,
      Bool.false_eq_true, if_false, if_true]
    simp only [Engine.removeLayer]
    rw [filter_eq_self_of_any_false m.sources sid h2]
  · simp only [removeLayerThenSource, h1, h2, hasSource_removeLayer, if_true]
    simp only [Engine.removeLayer, Engine.removeSource]

/-- The guarded removal's call log: the removeLayer call (when the layer
existed) followed by the removeSource call (when the source existed) — a
removeSource is never issued before the removeLayer. -/
theorem removeLayerThenSource_calls (m : Engine) (lid sid : String) :
    (removeLayerThenSource m lid sid).2
      = (if m.hasLayer lid then [ECall.removeLayer lid] else [])
        ++ (if m.hasSource sid then [ECall.removeSource sid] else []) := by
  cases h1 : m.hasLayer lid <;> cases h2 : m.hasSource sid <;>
    simp [removeLayerThenSource, hasSource_removeLayer, h1, h2]

/-- After the guarded layer-then-source removal the layer is absent. -/
theorem removeLayerThenSource_no_layer (m : Engine) (lid sid : String) :
    (removeLayerThenSource m lid sid).1.hasLayer lid = false := by
  rw [removeLayerThenSource_engine_eq]
  exact any_key_filter_ne m.layers lid

/-- After the guarded layer-then-source removal the source is absent. -/
theorem removeLayerThenSource_no_source (m : Engine) (lid sid : String) :
    (removeLayerThenSource m lid sid).1.hasSource sid = false := by
  rw [removeLayerThenSource_engine_eq]
  exact any_key_filter_ne m.sources sid

/-- The guarded removal is a no-op issuing no call when neither the layer
nor the source exists. -/
theorem removeLayerThenSource_noop (m : Engine) (lid sid : String)
    (h1 : m.hasLayer lid = false) (h2 : m.hasSource sid = false) :
    removeLayerThenSource m lid sid = (m, []) := by
  simp [removeLayerThenSource, h1, h2]

/-- Existentially packaged ordering of the removal calls. -/
theorem removeLayerThenSource_order (m : Engine) (lid sid : String) :
    ∃ a b, (removeLayerThenSource m lid sid).2 = a ++ b
      ∧ (∀ x ∈ a, x = ECall.removeLayer lid)
      ∧ (∀ x ∈ b, x = ECall.removeSource sid) := by
  refine ⟨if m.hasLayer lid then [ECall.removeLayer lid] else [],
    if m.hasSource sid then [ECall.removeSource sid] else [],
    removeLayerThenSource_calls m lid sid, ?_, ?_⟩
  · intro x hx
    cases h : m.hasLayer lid
    · simp [h] at hx
    · simp [h] at hx
      simp [hx]
  · intro x hx
    cases h : m.hasSource sid
    · simp [h] at hx
    · simp [h] at hx
      simp [hx]

/-- The guarded removal leaves no layer referring to the removed source,
provided only the overlay's own layer referred to it. -/
theorem removeLayerThenSource_no_dangling (m : Engine) (lid sid : String)
    (href : ∀ p ∈ m.layers, p.2 = sid → p.1 = lid) :
    ∀ p ∈ (removeLayerThenSource m lid sid).1.layers, p.2 ≠ sid := by
  rw [removeLayerThenSource_engine_eq]
  intro p hp hps
  have hmem := (List.mem_filter.mp hp).1
  have hne := (List.mem_filter.mp hp).2
  have := href p hmem hps
  simp [this] at hne

/-- The guarded removal never touches the click listeners. -/
theorem removeLayerThenSource_clickHandlers (m : Engine) (lid sid : String) :
    (removeLayerThenSource m lid sid).1.clickHandlers = m.clickHandlers := by
  rw [removeLayerThenSource_engine_eq]

/-- A successful addSource (no transition in flight) conses the source. -/
theorem addSource_ok (m : Engine) (id : String) (n : Nat)
    (h : m.styleLoading = false) :
    m.addSource id n
      = Except.ok ⟨(id, n) :: m.sources, m.layers, m.clickHandlers, false⟩ := by
  rw [Engine.addSource, if_neg (by simp [h])]
  rw [show ({ m with sources := (id, n) :: m.sources } : Engine)
    = ⟨(id, n) :: m.sources, m.layers, m.clickHandlers, m.styleLoading⟩ from rfl, h]

/-- A rejected addSource (transition in flight). -/
theorem addSource_rejected (m : Engine) (id : String) (n : Nat)
    (h : m.styleLoading = true) :
    m.addSource id n = Except.error EngineError.styleNotDoneLoading := by
  rw [Engine.addSource, if_pos (by simp [h])]

/-- setData leaves the layer set untouched. -/
theorem hasLayer_setData (m : Engine) (id : String) (n : Nat) (lid : String) :
    (m.setData id n).hasLayer lid = m.hasLayer lid := rfl

/-- addLayer leaves the sources untouched. -/
theorem getSource_addLayer (m : Engine) (lid src id : String) :
    (m.addLayer lid src).getSource id = m.getSource id := rfl

/-- attaching a click listener leaves the sources untouched. -/
theorem getSource_onClick (m : Engine) (l id : String) :
    (m.onClick l).getSource id = m.getSource id := rfl

/-- addLayer leaves source presence untouched. -/
theorem hasSource_addLayer (m : Engine) (lid src id : String) :
    (m.addLayer lid src).hasSource id = m.hasSource id := rfl

/-- attaching a click listener leaves source presence untouched. -/
theorem hasSource_onClick (m : Engine) (l id : String) :
    (m.onClick l).hasSource id = m.hasSource id := rfl

/-- attaching a click listener leaves layer presence untouched. -/
theorem hasLayer_onClick (m : Engine) (l id : String) :
    (m.onClick l).hasLayer id = m.hasLayer id := rfl

/-- The retry handler never registers a further retry, whatever the
engine state. -/
theorem storyRetry_pendingRetry (m : Engine) (n : Nat) (c : Bool) :
    (storyRetry m n c).pendingRetry = none := by
  simp only [storyRetry]
  repeat' split
  all_goals rfl

/-! ## Claim theorems -/

/-- C9: for every prior filter record and every key/value pair,
`updateFilter` sets only the named field of the filter record and leaves
every other field at its prior value; in particular updating `mediaType`
(e.g. to `video`) leaves `theme` and `dateRange` unchanged. -/
theorem updateFilter_frame (prev : FilterSettings) :
    (∀ v, (updateFilter prev (FilterValue.mediaType v)).mediaType = v
      ∧ (updateFilter prev (FilterValue.mediaType v)).theme = prev.theme
      ∧ (updateFilter prev (FilterValue.mediaType v)).dateRange = prev.dateRange)
    ∧ (∀ v, (updateFilter prev (FilterValue.theme v)).theme = v
      ∧ (updateFilter prev (FilterValue.theme v)).mediaType = prev.mediaType
      ∧ (updateFilter prev (FilterValue.theme v)).dateRange = prev.dateRange)
    ∧ (∀ v, (updateFilter prev (FilterValue.dateRange v)).dateRange = v
      ∧ (updateFilter prev (FilterValue.dateRange v)).theme = prev.theme
      ∧ (updateFilter prev (FilterValue.dateRange v)).mediaType = prev.mediaType) :=
  ⟨fun _ => ⟨rfl, rfl, rfl⟩, fun _ => ⟨rfl, rfl, rfl⟩, fun _ => ⟨rfl, rfl, rfl⟩⟩

/-- C10: if a mode change arrives while the host's readiness flag is
false, the mode-change effect returns with the host state and the engine
unchanged, issues no engine call, and registers no style.load handler —
so no pending style change is queued and the base map keeps the previous
mode's style.  (The effect is keyed on the mode value alone, so it does
not re-run when the readiness flag later returns to true: nothing
re-requests the swap.) -/
theorem modeChange_noop_when_not_ready (h : HostState) (m : Engine) (t : Bool)
    (hl : h.mapLoaded = false) :
    modeChangeEffect h m t = (h, m, [], false) := by
  simp [modeChangeEffect, hl]

/-- Witness for `modeChange_noop_when_not_ready` at a concrete not-ready
host. -/
theorem modeChange_noop_when_not_ready_witness :
    modeChangeEffect ⟨true, false⟩ loadedEmptyEngine false
      = (⟨true, false⟩, loadedEmptyEngine, [], false) :=
  modeChange_noop_when_not_ready ⟨true, false⟩ loadedEmptyEngine false rfl

/-- C3 counterexample: with the map present and ready and the engine
throwing inside `setStyle`, the mode-change effect ends with
`mapLoaded = false` and no style.load handler registered — the claimed
failure path that sets the readiness flag back to true does not exist in
the code (the effect has no try/catch). -/
theorem modeChange_throw_counterexample :
    (modeChangeEffect ⟨true, true⟩ loadedEmptyEngine true).1.mapLoaded = false
    ∧ (modeChangeEffect ⟨true, true⟩ loadedEmptyEngine true).2.2.2 = false := by
  decide

/-- C3 amended: if the engine throws while the host is swapping styles,
the host remains with ready=false: the exception propagates out of the
uncaught mode-change effect after the flag was flipped to false, the
engine state is left as it was, and no style.load handler is registered,
so nothing sets ready back to true until a remount. -/
theorem modeChange_throw_leaves_not_ready (h : HostState) (m : Engine)
    (hp : h.mapPresent = true) (hl : h.mapLoaded = true) :
    (modeChangeEffect h m true).1.mapLoaded = false
    ∧ (modeChangeEffect h m true).2.1 = m
    ∧ (modeChangeEffect h m true).2.2.2 = false := by
  simp [modeChangeEffect, hp, hl]

/-- Witness for `modeChange_throw_leaves_not_ready` at a concrete ready
host. -/
theorem modeChange_throw_leaves_not_ready_witness :
    (modeChangeEffect ⟨true, true⟩ loadedEmptyEngine true).1.mapLoaded = false
    ∧ (modeChangeEffect ⟨true, true⟩ loadedEmptyEngine true).2.1 = loadedEmptyEngine
    ∧ (modeChangeEffect ⟨true, true⟩ loadedEmptyEngine true).2.2.2 = false :=
  modeChange_throw_leaves_not_ready ⟨true, true⟩ loadedEmptyEngine rfl rfl

/-- C1 counterexample: a state with the readiness flag false in which an
overlay issues an engine mutation call.  The community overlay's fetch is
dispatched while ready; a mode change flips ready to false; the late
continuation then issues `addSource` against the engine (recorded by a spy
engine even though the engine rejects it mid-transition). -/
theorem overlay_mutation_while_not_ready_counterexample :
    lateFetchDuringTransition.1.mapLoaded = false
    ∧ (lateFetchDuringTransition.2.2.filter ECall.isMutation)
      = [ECall.addSource "community-data" 5] := by
  decide

/-- C1 amended: while the readiness flag is false, the host does not mount
its overlay children, and the synchronous effect bodies of all three
overlays issue no engine call at all (each returns early); the guarantee
does not extend to continuations of asynchronous work started earlier
(in-flight GeoJSON fetch handlers and deferred style.load retries), which
do not re-check the readiness flag and can still issue engine mutation
calls while ready=false. -/
theorem overlays_no_sync_call_when_not_ready (m : Engine) (mode : Mode)
    (c mp : Bool) :
    childrenMounted false = false
    ∧ (communityEffect m mp false c).2.1 = []
    ∧ (storyEffect m mp false mode).2.1 = []
    ∧ structureEffect mp false = (false, false) := by
  refine ⟨rfl, ?_, ?_, ?_⟩ <;> simp [communityEffect, storyEffect, structureEffect]

/-- C2: when the story overlay's first addSource is rejected by the engine
with the "Style is not done loading" error, the continuation leaves the
engine untouched, has issued exactly that one rejected addSource call, and
defers exactly one retry to the next style.load signal (`pendingRetry`);
the retry handler first re-checks whether the source now exists — creating
it when absent, updating its data in place when present — then adds the
paint layer if absent, and never registers a further retry. -/
theorem story_single_bounded_retry (m mr : Engine) (n : Nat) (c : Bool)
    (h1 : m.styleLoading = true) (h2 : m.hasSource "stories-data" = false)
    (h3 : mr.styleLoading = false) :
    storyOnData m n c = ⟨m, [ECall.addSource "stories-data" n], some n⟩
    ∧ (storyRetry mr n c).pendingRetry = none
    ∧ (mr.hasSource "stories-data" = false →
        (storyRetry mr n c).engine.hasSource "stories-data" = true
        ∧ (storyRetry mr n c).calls.head? = some (ECall.addSource "stories-data" n))
    ∧ (mr.hasSource "stories-data" = true →
        (storyRetry mr n c).engine.getSource "stories-data" = some n
        ∧ (storyRetry mr n c).calls.head? = some (ECall.setData "stories-data" n))
    ∧ (mr.hasLayer "story-markers" = false →
        (storyRetry mr n c).engine.hasLayer "story-markers" = true) := by
  refine ⟨?_, storyRetry_pendingRetry mr n c, ?_, ?_, ?_⟩
  · simp [storyOnData, addSource_rejected m _ n h1, h2]
  · intro hs
    simp only [storyRetry, hs, Bool.not_false, if_true,
      addSource_ok mr _ n h3]
    constructor
    · split
      · split <;>
          simp [Engine.hasSource, Engine.addLayer, Engine.onClick]
      · simp [Engine.hasSource]
    · split <;> simp
  · intro hs
    have hcalls : (storyRetry mr n c).calls.head?
        = some (ECall.setData "stories-data" n) := by
      simp only [storyRetry, hs, Bool.not_true, Bool.false_eq_true, if_false]
      cases hl2 : (mr.setData "stories-data" n).hasLayer "story-markers"
      · simp only [hl2, Bool.not_false, if_true]
        rfl
      · simp only [hl2, Bool.not_true, Bool.false_eq_true, if_false]
        rfl
    have hsrc : (storyRetry mr n c).engine.getSource "stories-data" = some n := by
      simp only [storyRetry, hs, Bool.not_true, Bool.false_eq_true, if_false]
      cases hl2 : (mr.setData "stories-data" n).hasLayer "story-markers"
      · simp only [hl2, Bool.not_false, if_true]
        cases c
        · simp only [Bool.false_eq_true, if_false, getSource_addLayer]
          exact getSource_setData mr _ n hs
        · simp only [if_true, getSource_onClick, getSource_addLayer]
          exact getSource_setData mr _ n hs
      · simp only [hl2, Bool.not_true, Bool.false_eq_true, if_false]
        exact getSource_setData mr _ n hs
    exact ⟨hsrc, hcalls⟩
  · intro hl
    cases hs : mr.hasSource "stories-data"
    · simp only [storyRetry, hs, Bool.not_false, if_true,
        addSource_ok mr _ n h3]
      have hl2 : (⟨("stories-data", n) :: mr.sources, mr.layers,
          mr.clickHandlers, false⟩ : Engine).hasLayer "story-markers" = false := hl
      simp only [hl2, Bool.not_false, if_true]
      split <;>
        simp [Engine.hasLayer, Engine.addLayer, Engine.onClick]
    · simp only [storyRetry, hs, Bool.not_true, Bool.false_eq_true, if_false]
      have hl2 : (mr.setData "stories-data" n).hasLayer "story-markers" = false := by
        rw [hasLayer_setData]; exact hl
      simp only [hl2, Bool.not_false, if_true]
      split <;>
        simp [Engine.hasLayer, Engine.addLayer, Engine.onClick]

/-- Witness for `story_single_bounded_retry`: a concrete mid-transition
engine for the rejected first attempt and a settled empty engine for the
retry. -/
theorem story_single_bounded_retry_witness :
    storyOnData ⟨[], [], [], true⟩ 3 false
      = ⟨⟨[], [], [], true⟩, [ECall.addSource "stories-data" 3], some 3⟩
    ∧ (storyRetry loadedEmptyEngine 3 false).pendingRetry = none :=
  ⟨(story_single_bounded_retry ⟨[], [], [], true⟩ loadedEmptyEngine 3 false
      rfl rfl rfl).1,
   (story_single_bounded_retry ⟨[], [], [], true⟩ loadedEmptyEngine 3 false
      rfl rfl rfl).2.1⟩

/-- C6: starting from the settled STORIES state (story fixture of 3 point
features, boundaries with 5, structures with 7), switching the mode to
DATA removes the story overlay's layer and source entirely (`getLayer`
and `getSource` report them absent) while the mode-invariant boundary and
structure overlays are present again after the transition settles with
unchanged feature counts; the story overlay dispatches no work outside
STORIES mode. -/
theorem mode_switch_removes_story_overlay :
    c6Before.getSource "stories-data" = some 3
    ∧ c6Before.hasLayer "story-markers" = true
    ∧ c6Before.getSource "community-data" = some 5
    ∧ c6Before.getSource "structure-data" = some 7
    ∧ c6After.getLayer "story-markers" = none
    ∧ c6After.getSource "stories-data" = none
    ∧ c6After.hasLayer "community-boundaries" = true
    ∧ c6After.getSource "community-data" = some 5
    ∧ c6After.hasLayer "structure-markers" = true
    ∧ c6After.getSource "structure-data" = some 7
    ∧ (storyEffect c6After true true Mode.data).2.2 = false := by
  decide

/-- C8: a failed GeoJSON fetch (network error or non-2xx status such as
HTTP 404) reaches only the logging catch branch of each overlay: the
engine is returned exactly as it was and no engine call is issued — no
source created or updated, no layer added or removed, and any pre-existing
overlay keeps its prior feature count. -/
theorem fetch_failure_leaves_state_unchanged (m : Engine) (c : Bool) :
    communityFetchContinuation m (Except.error ()) = (m, [])
    ∧ storyFetchContinuation m (Except.error ()) c = ⟨m, [], none⟩
    ∧ addStructureLayer m true (Except.error ()) = (m, [])
    ∧ addStructureLayer m false (Except.error ()) = (m, [])
    ∧ (communityFetchContinuation m (Except.error ())).1.getSource "community-data"
      = m.getSource "community-data"
    ∧ (storyFetchContinuation m (Except.error ()) c).engine.getSource "stories-data"
      = m.getSource "stories-data"
    ∧ (addStructureLayer m true (Except.error ())).1.getSource "structure-data"
      = m.getSource "structure-data" := by
  refine ⟨rfl, rfl, ?_, rfl, rfl, rfl, ?_⟩ <;> simp [addStructureLayer]

/-- C4 counterexample: unmounting (deactivating) the fully active
community overlay removes neither its layer nor its source — the cleanup
issues only the click-listener detach call — so it is not the case that
every overlay variant removes its layer and source on every deactivation
path. -/
theorem community_cleanup_removes_nothing_counterexample :
    (communityCleanup communityActiveEngine true).1.hasLayer "community-boundaries" = true
    ∧ (communityCleanup communityActiveEngine true).1.hasSource "community-data" = true
    ∧ (communityCleanup communityActiveEngine true).2
      = [ECall.offClick "community-boundaries"] := by
  decide

/-- C4 amended: the story and structure overlays' removal paths take the
layer out before the source, each step guarded by an existence check (the
whole removal is a no-op issuing no call when neither exists) and leave
no layer referring to the removed source (under the app's identifier
discipline where only the overlay's own layer refers to its source); the
community overlay, however, removes nothing on deactivation — its cleanup
only detaches its click listener, leaving both its layer and its source
in place. -/
theorem overlay_removal_discipline (m : Engine) (c : Bool)
    (hrefS : ∀ p ∈ m.layers, p.2 = "stories-data" → p.1 = "story-markers")
    (hrefT : ∀ p ∈ m.layers, p.2 = "structure-data" → p.1 = "structure-markers") :
    (storyRemove m).1.hasLayer "story-markers" = false
    ∧ (storyRemove m).1.hasSource "stories-data" = false
    ∧ (m.hasLayer "story-markers" = false → m.hasSource "stories-data" = false →
        storyRemove m = (m, []))
    ∧ (∃ a b, (storyRemove m).2 = a ++ b
        ∧ (∀ x ∈ a, x = ECall.removeLayer "story-markers")
        ∧ (∀ x ∈ b, x = ECall.removeSource "stories-data"))
    ∧ (∀ p ∈ (storyRemove m).1.layers, p.2 ≠ "stories-data")
    ∧ (structureCleanup m).1.hasLayer "structure-markers" = false
    ∧ (structureCleanup m).1.hasSource "structure-data" = false
    ∧ (m.hasLayer "structure-markers" = false → m.hasSource "structure-data" = false →
        structureCleanup m = (m, []))
    ∧ (∃ a b, (structureCleanup m).2 = a ++ b
        ∧ (∀ x ∈ a, x = ECall.removeLayer "structure-markers")
        ∧ (∀ x ∈ b, x = ECall.removeSource "structure-data"))
    ∧ (∀ p ∈ (structureCleanup m).1.layers, p.2 ≠ "structure-data")
    ∧ (communityCleanup m c).1.sources = m.sources
    ∧ (communityCleanup m c).1.layers = m.layers := by
  refine ⟨removeLayerThenSource_no_layer m _ _,
    removeLayerThenSource_no_source m _ _,
    removeLayerThenSource_noop m _ _,
    removeLayerThenSource_order m _ _,
    removeLayerThenSource_no_dangling m _ _ hrefS,
    removeLayerThenSource_no_layer m _ _,
    removeLayerThenSource_no_source m _ _,
    removeLayerThenSource_noop m _ _,
    removeLayerThenSource_order m _ _,
    removeLayerThenSource_no_dangling m _ _ hrefT,
    ?_, ?_⟩
  · cases c <;> simp [communityCleanup, Engine.offClick]
  · cases c <;> simp [communityCleanup, Engine.offClick]

/-- Witness for `overlay_removal_discipline` at the concrete engine on
which the community overlay is active (the identifier-discipline
hypotheses hold vacuously there). -/
theorem overlay_removal_discipline_witness :
    (storyRemove communityActiveEngine).1.hasLayer "story-markers" = false
    ∧ (communityCleanup communityActiveEngine true).1.sources
      = communityActiveEngine.sources :=
  ⟨(overlay_removal_discipline communityActiveEngine true
      (by decide) (by decide)).1,
   (overlay_removal_discipline communityActiveEngine true
      (by decide) (by decide)).2.2.2.2.2.2.2.2.2.2.1⟩

/-- C5 counterexample: the story overlay's fetch dispatched in STORIES
mode resolves only after the mode has switched to DATA and the overlay was
deactivated (layer and source removed, style settled); the late response's
continuation nevertheless mutates the map, re-creating the story source
and layer in DATA mode. -/
theorem stale_fetch_mutates_counterexample :
    lateFetchAfterDeactivation.engine.hasSource "stories-data" = true
    ∧ lateFetchAfterDeactivation.engine.hasLayer "story-markers" = true
    ∧ lateFetchAfterDeactivation.calls.filter ECall.isMutation ≠ [] := by
  decide

/-- C5 amended: fetch continuations are not abandoned on unmount or mode
switch and check no still-mounted / still-current-mode flag: a late
response is applied to the engine unconditionally (guarded only by
source/layer existence checks), so after a deactivation that removed the
overlay's source it re-creates the source — mutating a map that no longer
corresponds to the component and mode that issued the request. -/
theorem stale_fetch_applied_unconditionally (m : Engine) (n : Nat) (c : Bool)
    (h1 : m.styleLoading = false)
    (h2 : m.hasSource "stories-data" = false)
    (h3 : m.hasSource "community-data" = false) :
    (storyOnData m n c).engine.hasSource "stories-data" = true
    ∧ (storyOnData m n c).calls.filter ECall.isMutation ≠ []
    ∧ (communityOnData m n).1.hasSource "community-data" = true
    ∧ (communityOnData m n).2.filter ECall.isMutation ≠ [] := by
  refine ⟨?_, ?_, ?_, ?_⟩
  · simp only [storyOnData, h2, Bool.not_false, if_true, addSource_ok m _ n h1]
    cases c <;>
      simp [Engine.hasSource, Engine.addLayer, Engine.onClick]
  · simp only [storyOnData, h2, Bool.not_false, if_true, addSource_ok m _ n h1]
    cases c <;> simp [ECall.isMutation]
  · simp only [communityOnData, h3, Bool.not_false, if_true, addSource_ok m _ n h1]
    simp [Engine.hasSource, Engine.addLayer]
  · simp only [communityOnData, h3, Bool.not_false, if_true, addSource_ok m _ n h1]
    simp [ECall.isMutation]

/-- Witness for `stale_fetch_applied_unconditionally` on the empty settled
engine (the state right after a deactivation removed the overlay). -/
theorem stale_fetch_applied_unconditionally_witness :
    (storyOnData loadedEmptyEngine 3 false).engine.hasSource "stories-data" = true
    ∧ (communityOnData loadedEmptyEngine 3).1.hasSource "community-data" = true :=
  ⟨(stale_fetch_applied_unconditionally loadedEmptyEngine 3 false
      rfl rfl rfl).1,
   (stale_fetch_applied_unconditionally loadedEmptyEngine 3 false
      rfl rfl rfl).2.2.1⟩

/-- C7 counterexample: the story overlay activates with a click callback —
its listener is attached — and then deactivates through its removal path:
the layer is gone but the listener is still attached and no detach call
was ever issued, so the listener is not detached on every deactivation
path. -/
theorem story_click_listener_leak_counterexample :
    storyClickScenario.1.clickHandlers = ["story-markers"]
    ∧ storyClickScenario.1.hasLayer "story-markers" = false
    ∧ storyClickScenario.2.all
        (fun call => call ≠ ECall.offClick "story-markers") = true := by
  decide

/-- C7 amended: click listeners are attached scoped to the overlay's own
layer identifier (never the whole map) and the handler passes the first
matching feature under the pointer to the callback (doing nothing when
there is none); the community overlay detaches its listener in its
cleanup, but the story overlay's deactivation paths never detach its
listener. -/
theorem click_listener_contract (m : Engine) (n : Nat) (f : Nat)
    (fs : List Nat) (cb : Nat → Nat)
    (h1 : m.styleLoading = false)
    (h2 : m.hasSource "stories-data" = false) :
    (storyOnData m n true).engine.clickHandlers
      = "story-markers" :: m.clickHandlers
    ∧ ECall.onClick "story-markers" ∈ (storyOnData m n true).calls
    ∧ (communityEffect m true true true).2.1
      = [ECall.onClick "community-boundaries"]
    ∧ (communityEffect m true true true).1.clickHandlers
      = "community-boundaries" :: m.clickHandlers
    ∧ clickHandlerBody cb (f :: fs) = some (cb f)
    ∧ clickHandlerBody cb ([] : List Nat) = none
    ∧ (communityCleanup m true).1.clickHandlers
      = m.clickHandlers.filter (fun l => l != "community-boundaries")
    ∧ (storyRemove m).1.clickHandlers = m.clickHandlers := by
  refine ⟨?_, ?_, rfl, rfl, rfl, rfl, rfl,
    removeLayerThenSource_clickHandlers m _ _⟩
  · simp only [storyOnData, h2, Bool.not_false, if_true, addSource_ok m _ n h1]
    simp [Engine.addLayer, Engine.onClick]
  · simp only [storyOnData, h2, Bool.not_false, if_true, addSource_ok m _ n h1]
    simp

/-- Witness for `click_listener_contract` at the empty settled engine. -/
theorem click_listener_contract_witness :
    (storyOnData loadedEmptyEngine 3 true).engine.clickHandlers = ["story-markers"]
    ∧ (storyRemove loadedEmptyEngine).1.clickHandlers
      = loadedEmptyEngine.clickHandlers :=
  ⟨(click_listener_contract loadedEmptyEngine 3 1 [] (fun x => x) rfl rfl).1,
   (click_listener_contract loadedEmptyEngine 3 1 [] (fun x => x)
      rfl rfl).2.2.2.2.2.2.2⟩

end NG

